/-
Verification of the university domain model (lab1/sources/models.py and
lab1/sources/university.py) against its specification.

Shallow embedding conventions:
* Python mutable objects become immutable Lean structures; methods become
  functions returning the updated value (paired with `Except` for methods
  that can raise).
* Python `dict` (insertion-ordered, unique keys) is an association list;
  assignment to an existing key updates the value in place, a new key is
  appended at the end, matching CPython insertion-order semantics.
* Exceptions become an `UnivError` sum type; a raising method returns
  `Except UnivError α`.  Where mutations performed before a raise must be
  observable (Exam.conduct, Library.lend_book), the function returns the
  final state alongside the `Except` result; a raise before any mutation
  leaves the returned state equal to the input state.
* `randint(1, 10)` is modelled by a grade stream `rand : Nat → Int`,
  the pluggable randomness source required by the spec.
* Python numeric results (`float`) are modelled by `ℚ`; `round(x, 2)` is
  round-half-to-even at two decimals, as in Python.
-/
import Mathlib

namespace Univ

/-- Error taxonomy of sources/exceptions.py (kinds only). -/
inductive UnivError where
  | valueError      -- Python ValueError ("ValidationError" kind in the spec)
  | resourceError
  | enrollmentError
  | stateError
  deriving DecidableEq, Repr

/-- Book: frozen dataclass, equality on all three fields. -/
structure Book where
  title : String
  author : String
  isbn : String
  deriving DecidableEq, Repr

/-- Curriculum: specialty name plus required subjects, insertion order. -/
structure Curriculum where
  specialty_name : String
  required_subjects : List String
  deriving DecidableEq, Repr

/-- Classroom: number, capacity, occupied flag (initially free). -/
structure Classroom where
  number : Int
  capacity : Int
  is_occupied : Bool := false
  deriving DecidableEq, Repr

/-- Insertion-ordered dict update: existing key is overwritten in place,
a fresh key is appended at the end (CPython dict assignment). -/
def dictInsert (k : String) (v : Int) : List (String × Int) → List (String × Int)
  | [] => [(k, v)]
  | (k', v') :: rest =>
      if k' = k then (k, v) :: rest else (k', v') :: dictInsert k v rest

/-- First-match lookup in an association list (Python dict lookup). -/
def dictLookup (k : String) : List (String × Int) → Option Int
  | [] => none
  | (k', v') :: rest => if k' = k then some v' else dictLookup k rest

/-- Student: curriculum reference, scholarship, record book, borrowed books. -/
structure Student where
  full_name : String
  age : Int
  id : String
  curriculum : Option Curriculum := none
  scholarship_amount : ℚ := 0
  record_book : List (String × Int) := []
  borrowed_books : List Book := []
  deriving DecidableEq, Repr

namespace Student

/-- `Student.average_score`: mean of recorded grades, 0.0 when empty. -/
def average_score (s : Student) : ℚ :=
  if s.record_book = [] then 0
  else ((s.record_book.map Prod.snd).sum : ℚ) / (s.record_book.length : ℚ)

/-- `Student.assign_scholarship`: unconditional setter. -/
def assign_scholarship (s : Student) (amount : ℚ) : Student :=
  { s with scholarship_amount := amount }

/-- `Student.take_exam(subject_name, grade)`. -/
def take_exam (s : Student) (subject_name : String) (grade : Int) :
    Except UnivError Student :=
  if ¬ (0 ≤ grade ∧ grade ≤ 10) then
    .error .valueError
  else
    match s.curriculum with
    | some c =>
        if subject_name ∉ c.required_subjects then
          .error .enrollmentError
        else
          .ok { s with record_book := dictInsert subject_name grade s.record_book }
    | none =>
        .ok { s with record_book := dictInsert subject_name grade s.record_book }

/-- `Student.borrow_book`. -/
def borrow_book (s : Student) (book : Book) : Except UnivError Student :=
  if book ∈ s.borrowed_books then
    .error .resourceError
  else
    .ok { s with borrowed_books := s.borrowed_books ++ [book] }

/-- `Student.return_book`. -/
def return_book (s : Student) (book : Book) : Except UnivError Student :=
  if book ∈ s.borrowed_books then
    .ok { s with borrowed_books := s.borrowed_books.erase book }
  else
    .error .resourceError

end Student

/-- TeacherDegree enum of models.py. -/
inductive TeacherDegree where
  | doctorOfSciences
  | candidateOfSciences
  | associateProfessor
  | professor
  | seniorLecturer
  | lecturer
  deriving DecidableEq, Repr

/-- Teacher: optional degree, taught subjects. -/
structure Teacher where
  full_name : String
  age : Int
  id : String
  degree : Option TeacherDegree := none
  subjects : List String := []
  deriving DecidableEq, Repr

/-- `Teacher.evaluate_student`: delegates to `Student.take_exam`. -/
def Teacher.evaluate_student (_t : Teacher) (student : Student)
    (subject : String) (grade : Int) : Except UnivError Student :=
  student.take_exam subject grade

/-- Round-half-to-even to an integer (semantics of Python `round(x)`). -/
def roundHalfEven (q : ℚ) : ℤ :=
  let f := ⌊q⌋
  let r := q - (f : ℚ)
  if r < 1/2 then f
  else if (1 : ℚ)/2 < r then f + 1
  else if f % 2 = 0 then f else f + 1

/-- `round(x, 2)`: round-half-to-even at two decimal places. -/
def round2 (q : ℚ) : ℚ := ((roundHalfEven (q * 100) : ℚ)) / 100

/-- ScholarshipDepartment policy parameters. -/
structure ScholarshipDepartment where
  min_average_score : ℚ := 6
  base_amount : ℚ := 100
  deriving DecidableEq, Repr

/-- `ScholarshipDepartment.calculate_and_assign`: loops over the roster,
assigning every student an award and counting the qualifying ones. -/
def ScholarshipDepartment.calculate_and_assign (d : ScholarshipDepartment) :
    List Student → List Student × Nat
  | [] => ([], 0)
  | s :: rest =>
      let (rest', count) := d.calculate_and_assign rest
      if d.min_average_score ≤ s.average_score then
        let bonus := (s.average_score - d.min_average_score) * (1/10)
        let final_amount := round2 (d.base_amount * (1 + bonus))
        (s.assign_scholarship final_amount :: rest', count + 1)
      else
        (s.assign_scholarship 0 :: rest', count)

/-- First inventory entry whose key equals `b` gets its count shifted by `d`
(CPython `self.inventory[b] += d` on a dict with unique keys). -/
def invAdjust (b : Book) (d : Int) : List (Book × Int) → List (Book × Int)
  | [] => []
  | (b', c) :: rest =>
      if b' = b then (b', c + d) :: rest else (b', c) :: invAdjust b d rest

/-- Dict lookup by full Book equality. -/
def invLookup (b : Book) : List (Book × Int) → Option Int
  | [] => none
  | (b', c) :: rest => if b' = b then some c else invLookup b rest

/-- First inventory key whose title matches (the `next(...)` scan). -/
def findByTitle (title : String) : List (Book × Int) → Option Book
  | [] => none
  | (b, _) :: rest => if b.title = title then some b else findByTitle title rest

/-- Library: inventory dict from Book to remaining-copies count. -/
structure Library where
  inventory : List (Book × Int) := []
  deriving DecidableEq, Repr

namespace Library

/-- `Library.add_book(book, quantity=1)`: increment if present, insert otherwise. -/
def add_book (lib : Library) (book : Book) (quantity : Int) : Library :=
  if book ∈ lib.inventory.map Prod.fst then
    ⟨invAdjust book quantity lib.inventory⟩
  else
    ⟨lib.inventory ++ [(book, quantity)]⟩

/-- `Library.lend_book(student, book_title)`.  Returns the outcome together
with the final library and student states (unchanged on every raise path,
since the decrement only happens after `borrow_book` succeeded). -/
def lend_book (lib : Library) (student : Student) (book_title : String) :
    Except UnivError Unit × Library × Student :=
  match findByTitle book_title lib.inventory with
  | none => (.error .resourceError, lib, student)
  | some found_book =>
      match invLookup found_book lib.inventory with
      | none => (.error .resourceError, lib, student)  -- dead branch: the scan key is in the dict
      | some count =>
          if count ≤ 0 then
            (.error .resourceError, lib, student)
          else
            match student.borrow_book found_book with
            | .error e => (.error e, lib, student)
            | .ok student' =>
                (.ok (), ⟨invAdjust found_book (-1) lib.inventory⟩, student')

/-- `Library.accept_return(student, book_title)`. -/
def accept_return (lib : Library) (student : Student) (book_title : String) :
    Except UnivError Unit × Library × Student :=
  match findByTitle book_title lib.inventory with
  | none => (.error .resourceError, lib, student)
  | some found_book =>
      if found_book ∉ student.borrowed_books then
        (.error .resourceError, lib, student)
      else
        match student.return_book found_book with
        | .error e => (.error e, lib, student)  -- dead branch: membership was checked above
        | .ok student' =>
            (.ok (), ⟨invAdjust found_book 1 lib.inventory⟩, student')

end Library

namespace Classroom

/-- `Classroom.occupy`. -/
def occupy (c : Classroom) : Except UnivError Classroom :=
  if c.is_occupied then .error .stateError
  else .ok { c with is_occupied := true }

/-- `Classroom.vacate`. -/
def vacate (c : Classroom) : Except UnivError Classroom :=
  if ¬ c.is_occupied then .error .stateError
  else .ok { c with is_occupied := false }

end Classroom

/-- Python `str.lower`, mapping the lowercase conversion over each character. -/
def pyLower (s : String) : String := ⟨s.data.map Char.toLower⟩

/-- Exam: subject, date (an abstract timestamp), teacher, classroom, roster. -/
structure Exam where
  subject : String
  date : Int
  teacher : Teacher
  classroom : Classroom
  registered_students : List Student := []
  deriving DecidableEq, Repr

namespace Exam

/-- The grading loop of `Exam.conduct`, with `i` the index into the grade
stream.  Returns the roster (students graded so far updated, the rest as
they were), the failed list in roster order, and the first raised error, if
any; on a raise the loop aborts, matching exception propagation. -/
def conductLoop (t : Teacher) (subj : String) (rand : Nat → Int) :
    Nat → List Student → List Student × List Student × Option UnivError
  | _, [] => ([], [], none)
  | i, s :: rest =>
      match t.evaluate_student s subj (rand i) with
      | .error e => (s :: rest, [], some e)
      | .ok s' =>
          let (rest', failed, err) := conductLoop t subj rand (i + 1) rest
          (s' :: rest', if rand i < 4 then s' :: failed else failed, err)

/-- `Exam.conduct`: occupy the classroom, grade every registered student in
roster order, vacate, return the failed students.  The second component is
the final exam state, reflecting all mutations performed before a raise;
there is no scoped-release guard in the source, so a raise inside the
grading loop leaves the classroom occupied. -/
def conduct (e : Exam) (rand : Nat → Int) :
    Except UnivError (List Student) × Exam :=
  match Classroom.occupy e.classroom with
  | .error err => (.error err, e)
  | .ok room1 =>
      match conductLoop e.teacher e.subject rand 0 e.registered_students with
      | (students', _, some err) =>
          (.error err, { e with classroom := room1, registered_students := students' })
      | (students', failed, none) =>
          match Classroom.vacate room1 with
          | .error err =>
              (.error err, { e with classroom := room1, registered_students := students' })
          | .ok room2 =>
              (.ok failed, { e with classroom := room2, registered_students := students' })

end Exam

/-- University aggregate root. -/
structure University where
  name : String
  library : Library := ⟨[]⟩
  accounting : ScholarshipDepartment := {}
  students : List Student := []
  teachers : List Teacher := []
  classrooms : List Classroom := []
  curriculums : List Curriculum := []
  exams : List Exam := []
  deriving Repr

namespace University

/-- `University.get_curriculum`: first curriculum whose specialty name
matches case-insensitively (Python `str.lower`, modelled per character). -/
def get_curriculum (u : University) (nm : String) : Option Curriculum :=
  u.curriculums.find? (fun c => pyLower c.specialty_name = pyLower nm)

/-- `University.enroll_student(full_name, age, curriculum_name)`; `fresh_id`
stands for the `uuid4()` call.  Returns the outcome with the final
university state (unchanged when the lookup fails). -/
def enroll_student (u : University) (full_name : String) (age : Int)
    (curriculum_name : String) (fresh_id : String) :
    Except UnivError Student × University :=
  match u.get_curriculum curriculum_name with
  | none => (.error .enrollmentError, u)
  | some curr =>
      let new_student : Student :=
        { full_name := full_name, age := age, id := fresh_id, curriculum := some curr }
      (.ok new_student, { u with students := u.students ++ [new_student] })

/-- `University.create_exam(subject, teacher, classroom, students)`; `now`
stands for the `datetime.now()` call. -/
def create_exam (u : University) (subject : String) (teacher : Teacher)
    (classroom : Classroom) (students : List Student) (now : Int) :
    Except UnivError Exam × University :=
  if subject ∉ teacher.subjects then
    (.error .enrollmentError, u)
  else
    let exam : Exam :=
      { subject := subject, date := now, teacher := teacher,
        classroom := classroom, registered_students := students }
    (.ok exam, { u with exams := u.exams ++ [exam] })

end University

/-! ### Sample values used by witnesses -/

def itCurriculum : Curriculum := { specialty_name := "IT", required_subjects := ["OOP"] }

def sampleStudent : Student :=
  { full_name := "Ivan", age := 20, id := "s1", curriculum := some itCurriculum }

def mathStudent : Student :=
  { full_name := "Petr", age := 21, id := "s2",
    curriculum := some { specialty_name := "Math", required_subjects := ["Algebra"] } }

def sampleTeacher : Teacher :=
  { full_name := "Olga", age := 45, id := "t1",
    degree := some .professor, subjects := ["OOP"] }

def sampleUni : University :=
  { name := "BSUIR", curriculums := [itCurriculum] }

def cBook : Book := { title := "T", author := "A", isbn := "i1" }

/-- Exam used to exhibit the classroom leak: the registered student follows
the Math curriculum, which does not require the exam subject OOP, so the
grading loop raises EnrollmentError after the classroom was occupied. -/
def leakExam : Exam :=
  { subject := "OOP", date := 0, teacher := sampleTeacher,
    classroom := { number := 101, capacity := 30, is_occupied := false },
    registered_students := [mathStudent] }

/-- Command alphabet for the Library state machine: the three inventory
mutating operations, each with its arguments (`lend` and `ret` carry the
student the call is made with). -/
inductive LibOp where
  | add (b : Book) (q : Int)
  | lend (s : Student) (title : String)
  | ret (s : Student) (title : String)
  deriving DecidableEq, Repr

/-- Run one library operation, keeping the final library state whether or
not the call raised (a raise leaves the library unchanged). -/
def applyOp (lib : Library) : LibOp → Library
  | .add b q => lib.add_book b q
  | .lend s title => (lib.lend_book s title).2.1
  | .ret s title => (lib.accept_return s title).2.1

/-- Every `add` in the operation carries a non-negative quantity. -/
def LibOp.quantityOK : LibOp → Prop
  | .add _ q => 0 ≤ q
  | .lend _ _ => True
  | .ret _ _ => True

/-- The record-book update a successful `take_exam` performs, abbreviated
for stating the conduct roster formula. -/
def gradeUpd (subj : String) (g : Int) (s : Student) : Student :=
  { s with record_book := dictInsert subj g s.record_book }

/-! ### Dictionary lemmas -/

theorem dictLookup_dictInsert_self (k : String) (v : Int) (l : List (String × Int)) :
    dictLookup k (dictInsert k v l) = some v := by
  induction l with
  | nil => simp [dictInsert, dictLookup]
  | cons p rest ih =>
      obtain ⟨k', v'⟩ := p
      by_cases h : k' = k <;> simp [dictInsert, dictLookup, h, ih]

theorem dictLookup_dictInsert_other (t k : String) (v : Int) (l : List (String × Int))
    (ht : t ≠ k) : dictLookup t (dictInsert k v l) = dictLookup t l := by
  have hkt : ¬ k = t := fun h => ht h.symm
  induction l with
  | nil => simp [dictInsert, dictLookup, hkt]
  | cons p rest ih =>
      obtain ⟨k', v'⟩ := p
      by_cases h : k' = k
      · subst h
        simp [dictInsert, dictLookup, hkt]
      · by_cases h2 : k' = t <;> simp [dictInsert, dictLookup, h, h2, hkt, ht, ih]

theorem mem_fst_dictInsert (t k : String) (v : Int) (l : List (String × Int)) :
    t ∈ (dictInsert k v l).map Prod.fst ↔ t = k ∨ t ∈ l.map Prod.fst := by
  induction l with
  | nil => simp [dictInsert]
  | cons p rest ih =>
      obtain ⟨k', v'⟩ := p
      by_cases h : k' = k
      · have e1 : dictInsert k v ((k', v') :: rest) = (k, v) :: rest := by
          simp [dictInsert, h]
        rw [e1]
        simp only [List.map_cons, List.mem_cons, h]
        tauto
      · have e1 : dictInsert k v ((k', v') :: rest) = (k', v') :: dictInsert k v rest := by
          simp [dictInsert, h]
        rw [e1]
        simp only [List.map_cons, List.mem_cons, ih]
        tauto

theorem nodup_fst_dictInsert (k : String) (v : Int) (l : List (String × Int))
    (h : (l.map Prod.fst).Nodup) : ((dictInsert k v l).map Prod.fst).Nodup := by
  induction l with
  | nil => simp [dictInsert]
  | cons p rest ih =>
      obtain ⟨k', v'⟩ := p
      simp only [List.map_cons, List.nodup_cons] at h
      by_cases hk : k' = k
      · subst hk
        simpa [dictInsert] using h
      · simp only [dictInsert, if_neg hk, List.map_cons]
        refine List.nodup_cons.mpr ⟨?_, ih h.2⟩
        rw [mem_fst_dictInsert]
        rintro (rfl | hm)
        · exact hk rfl
        · exact h.1 hm

/-! ### C3: Student.take_exam -/

/-- C3: `Student.take_exam(subject, grade)` raises ValueError when the grade
is outside [0,10]; raises EnrollmentError when the student has a curriculum
that does not require the subject; otherwise records the grade, overwriting
any previous grade for that subject and leaving every other subject intact,
and keeps the record book a map with at most one grade per subject. -/
theorem take_exam_correct (s : Student) (subj : String) (g : Int) :
    (¬ (0 ≤ g ∧ g ≤ 10) → s.take_exam subj g = .error .valueError)
    ∧ (∀ c, s.curriculum = some c → subj ∉ c.required_subjects →
        0 ≤ g → g ≤ 10 → s.take_exam subj g = .error .enrollmentError)
    ∧ (0 ≤ g → g ≤ 10 →
        (s.curriculum = none ∨ ∃ c, s.curriculum = some c ∧ subj ∈ c.required_subjects) →
        s.take_exam subj g = .ok { s with record_book := dictInsert subj g s.record_book }
        ∧ dictLookup subj (dictInsert subj g s.record_book) = some g
        ∧ (∀ t2, t2 ≠ subj →
            dictLookup t2 (dictInsert subj g s.record_book) = dictLookup t2 s.record_book)
        ∧ ((s.record_book.map Prod.fst).Nodup →
            ((dictInsert subj g s.record_book).map Prod.fst).Nodup)) := by
  refine ⟨?_, ?_, ?_⟩
  · intro h
    simp [Student.take_exam, h]
  · intro c hc hs h0 h10
    simp [Student.take_exam, hc, hs, h0, h10]
  · rintro h0 h10 (hnone | ⟨c, hc, hs⟩)
    · exact ⟨by simp [Student.take_exam, hnone, h0, h10],
        dictLookup_dictInsert_self _ _ _,
        fun t2 ht => dictLookup_dictInsert_other t2 subj g _ ht,
        nodup_fst_dictInsert _ _ _⟩
    · exact ⟨by simp [Student.take_exam, hc, hs, h0, h10],
        dictLookup_dictInsert_self _ _ _,
        fun t2 ht => dictLookup_dictInsert_other t2 subj g _ ht,
        nodup_fst_dictInsert _ _ _⟩

/-- Witness for C3: a student of the IT curriculum takes the OOP exam with
grade 7 and the record book holds exactly that grade. -/
theorem take_exam_correct_witness :
    sampleStudent.take_exam "OOP" 7 =
      .ok { sampleStudent with record_book := [("OOP", 7)] } :=
  ((take_exam_correct sampleStudent "OOP" 7).2.2 (by norm_num) (by norm_num)
    (Or.inr ⟨itCurriculum, rfl, by simp [itCurriculum]⟩)).1

/-! ### C9: Student.average_score -/

/-- C9: `Student.average_score` is 0.0 on an empty record book, otherwise the
arithmetic mean of the recorded grades; a record book with grades 8 and 10
averages exactly 9.0. -/
theorem average_score_correct (s : Student) :
    (s.record_book = [] → s.average_score = 0)
    ∧ (s.record_book ≠ [] →
        s.average_score =
          ((s.record_book.map Prod.snd).sum : ℚ) / (s.record_book.length : ℚ))
    ∧ (∀ t1 t2, s.record_book = [(t1, 8), (t2, 10)] → s.average_score = 9) := by
  refine ⟨fun h => by simp [Student.average_score, h],
    fun h => by simp [Student.average_score, h], fun t1 t2 h => ?_⟩
  simp [Student.average_score, h]
  norm_num

/-- Witness for C9: a student with grades 8 and 10 averages exactly 9. -/
theorem average_score_correct_witness :
    ({ sampleStudent with record_book := [("OOP", 8), ("Math", 10)] } : Student).average_score = 9 :=
  (average_score_correct _).2.2 "OOP" "Math" rfl

/-! ### C5: Exam.conduct on an occupied classroom -/

/-- C5: conducting an exam whose classroom is already occupied fails with
StateError and leaves the exam state (roster record books and the classroom,
still occupied) exactly as it was, before any grading. -/
theorem conduct_occupied (e : Exam) (rand : Nat → Int)
    (h : e.classroom.is_occupied = true) :
    e.conduct rand = (.error .stateError, e) := by
  simp [Exam.conduct, Classroom.occupy, h]

/-- Witness for C5: a concrete occupied classroom aborts the exam unchanged. -/
theorem conduct_occupied_witness :
    (({ subject := "OOP", date := 0, teacher := sampleTeacher,
        classroom := { number := 101, capacity := 30, is_occupied := true },
        registered_students := [sampleStudent] } : Exam).conduct (fun _ => 5))
      = (.error .stateError,
         { subject := "OOP", date := 0, teacher := sampleTeacher,
           classroom := { number := 101, capacity := 30, is_occupied := true },
           registered_students := [sampleStudent] }) :=
  conduct_occupied _ _ rfl

/-! ### C10: University.create_exam -/

/-- C10: `University.create_exam` checks only that the subject is among the
teacher taught subjects — failing with EnrollmentError and leaving the
university unchanged otherwise — and for every classroom and student list
(occupied or not, over capacity or empty) it succeeds and appends the exam. -/
theorem create_exam_correct (u : University) (subject : String) (t : Teacher)
    (room : Classroom) (ss : List Student) (now : Int) :
    (subject ∉ t.subjects →
        u.create_exam subject t room ss now = (.error .enrollmentError, u))
    ∧ (subject ∈ t.subjects →
        u.create_exam subject t room ss now =
          (.ok { subject := subject, date := now, teacher := t, classroom := room,
                 registered_students := ss },
           { u with exams := u.exams ++
               [{ subject := subject, date := now, teacher := t, classroom := room,
                  registered_students := ss }] })) := by
  constructor
  · intro h
    simp [University.create_exam, h]
  · intro h
    simp [University.create_exam, h]

/-- Witness for C10: an occupied zero-capacity classroom and two students who
are not enrolled anywhere still yield a successfully registered exam. -/
theorem create_exam_correct_witness :
    sampleUni.create_exam "OOP" sampleTeacher
        { number := 1, capacity := 0, is_occupied := true }
        [sampleStudent, mathStudent] 0
      = (.ok { subject := "OOP", date := 0, teacher := sampleTeacher,
               classroom := { number := 1, capacity := 0, is_occupied := true },
               registered_students := [sampleStudent, mathStudent] },
         { sampleUni with exams :=
            [{ subject := "OOP", date := 0, teacher := sampleTeacher,
               classroom := { number := 1, capacity := 0, is_occupied := true },
               registered_students := [sampleStudent, mathStudent] }] }) :=
  (create_exam_correct sampleUni "OOP" sampleTeacher _ _ 0).2 (by simp [sampleTeacher])

/-! ### C8: University.enroll_student -/

/-- C8: `University.enroll_student` looks the curriculum up by
case-insensitive exact match on specialty name; with no match it fails with
EnrollmentError leaving the university unchanged; on a match it appends
exactly one new student bound to the matched curriculum. -/
theorem enroll_student_correct (u : University) (nm : String) (age : Int)
    (cn fresh : String) :
    ((∀ c ∈ u.curriculums, pyLower c.specialty_name ≠ pyLower cn) →
        u.enroll_student nm age cn fresh = (.error .enrollmentError, u))
    ∧ (∀ c, u.get_curriculum cn = some c →
        c ∈ u.curriculums ∧ pyLower c.specialty_name = pyLower cn ∧
        u.enroll_student nm age cn fresh =
          (.ok { full_name := nm, age := age, id := fresh, curriculum := some c },
           { u with students := u.students ++
               [{ full_name := nm, age := age, id := fresh, curriculum := some c }] })) := by
  constructor
  · intro h
    have hn : u.get_curriculum cn = none := by
      rw [University.get_curriculum, List.find?_eq_none]
      intro c hc
      simpa using h c hc
    simp [University.enroll_student, hn]
  · intro c hc
    exact ⟨List.mem_of_find?_eq_some hc, by simpa using List.find?_some hc,
      by simp [University.enroll_student, hc]⟩

/-- Witness for C8: enrolling into "it" matches the curriculum named "IT"
case-insensitively and appends the bound student. -/
theorem enroll_student_correct_witness :
    sampleUni.enroll_student "Anna" 19 "it" "s9"
      = (.ok { full_name := "Anna", age := 19, id := "s9", curriculum := some itCurriculum },
         { sampleUni with students :=
            [{ full_name := "Anna", age := 19, id := "s9", curriculum := some itCurriculum }] }) :=
  ((enroll_student_correct sampleUni "Anna" 19 "it" "s9").2 itCurriculum (by decide)).2.2

/-! ### C7: ScholarshipDepartment.calculate_and_assign -/

/-- C7: `calculate_and_assign` assigns an award to every student of the
input list: the qualifying formula rounded to two decimals above the
threshold, exactly 0.0 below it; with min=6 and base=100 an average of 8
yields exactly 120 and an average of 4 yields exactly 0. -/
theorem calculate_and_assign_correct (d : ScholarshipDepartment)
    (students : List Student) :
    (d.calculate_and_assign students).1 =
      students.map (fun s =>
        if d.min_average_score ≤ s.average_score then
          s.assign_scholarship
            (round2 (d.base_amount * (1 + (s.average_score - d.min_average_score) * (1/10))))
        else s.assign_scholarship 0)
    ∧ (∀ s : Student, s.average_score = 8 →
        ((({ min_average_score := 6, base_amount := 100 } :
            ScholarshipDepartment).calculate_and_assign [s]).1.map
          Student.scholarship_amount) = [120])
    ∧ (∀ s : Student, s.average_score = 4 →
        ((({ min_average_score := 6, base_amount := 100 } :
            ScholarshipDepartment).calculate_and_assign [s]).1.map
          Student.scholarship_amount) = [0]) := by
  refine ⟨?_, ?_, ?_⟩
  · induction students with
    | nil => rfl
    | cons s rest ih =>
        by_cases h : d.min_average_score ≤ s.average_score <;>
          simp [ScholarshipDepartment.calculate_and_assign, h, ih]
  · intro s h
    have h6 : (6 : ℚ) ≤ s.average_score := by rw [h]; norm_num
    simp [ScholarshipDepartment.calculate_and_assign, h, h6, Student.assign_scholarship]
    norm_num [round2, roundHalfEven]
  · intro s h
    have h6 : ¬ ((6 : ℚ) ≤ s.average_score) := by rw [h]; norm_num
    simp [ScholarshipDepartment.calculate_and_assign, h6, Student.assign_scholarship]

/-- Witness for C7: a student with the single grade 8 averages 8 and is
assigned exactly 120 under the default min=6, base=100 policy. -/
theorem calculate_and_assign_correct_witness :
    ((({ min_average_score := 6, base_amount := 100 } :
        ScholarshipDepartment).calculate_and_assign
          [{ sampleStudent with record_book := [("OOP", 8)] }]).1.map
      Student.scholarship_amount) = [120] :=
  (calculate_and_assign_correct { min_average_score := 6, base_amount := 100 }
      [{ sampleStudent with record_book := [("OOP", 8)] }]).2.1 _
    (by norm_num [Student.average_score])

/-! ### Inventory lemmas -/

theorem invLookup_invAdjust_self (b : Book) (d c : Int) (l : List (Book × Int))
    (h : invLookup b l = some c) : invLookup b (invAdjust b d l) = some (c + d) := by
  induction l with
  | nil => simp [invLookup] at h
  | cons p rest ih =>
      obtain ⟨b', c'⟩ := p
      by_cases hb : b' = b
      · subst hb
        simp [invLookup] at h
        simp [invAdjust, invLookup, h]
      · simp [invLookup, hb] at h
        simp [invAdjust, invLookup, hb, ih h]

theorem invLookup_invAdjust_other (b2 b : Book) (d : Int) (l : List (Book × Int))
    (h : b2 ≠ b) : invLookup b2 (invAdjust b d l) = invLookup b2 l := by
  induction l with
  | nil => simp [invAdjust]
  | cons p rest ih =>
      obtain ⟨b', c'⟩ := p
      by_cases hb : b' = b
      · subst hb
        have : ¬ b' = b2 := fun hx => h (hx.symm)
        simp [invAdjust, invLookup, this]
      · by_cases hb2 : b' = b2 <;> simp [invAdjust, invLookup, hb, hb2, h, ih]

theorem findByTitle_eq_none (title : String) (l : List (Book × Int)) :
    findByTitle title l = none ↔ ∀ p ∈ l, p.1.title ≠ title := by
  induction l with
  | nil => simp [findByTitle]
  | cons p rest ih =>
      obtain ⟨b, c⟩ := p
      by_cases hb : b.title = title <;> simp [findByTitle, hb, ih]

/-! ### C2: Library.lend_book -/

/-- C2: `lend_book` fails with ResourceError, changing nothing, when no
inventory book has the requested title, when the first title-matching entry
has count ≤ 0, or when the student already holds the matched book; on
success the book is appended to the borrowed list and its count drops by
exactly one while every other count is untouched. -/
theorem lend_book_correct (lib : Library) (student : Student) (title : String) :
    ((∀ p ∈ lib.inventory, p.1.title ≠ title) →
        lib.lend_book student title = (.error .resourceError, lib, student))
    ∧ (∀ b c, findByTitle title lib.inventory = some b →
        invLookup b lib.inventory = some c → c ≤ 0 →
        lib.lend_book student title = (.error .resourceError, lib, student))
    ∧ (∀ b c, findByTitle title lib.inventory = some b →
        invLookup b lib.inventory = some c → 0 < c →
        b ∈ student.borrowed_books →
        lib.lend_book student title = (.error .resourceError, lib, student))
    ∧ (∀ b c, findByTitle title lib.inventory = some b →
        invLookup b lib.inventory = some c → 0 < c →
        b ∉ student.borrowed_books →
        lib.lend_book student title =
          (.ok (), ⟨invAdjust b (-1) lib.inventory⟩,
           { student with borrowed_books := student.borrowed_books ++ [b] })
        ∧ invLookup b (invAdjust b (-1) lib.inventory) = some (c - 1)
        ∧ (∀ b2, b2 ≠ b →
            invLookup b2 (invAdjust b (-1) lib.inventory) = invLookup b2 lib.inventory)) := by
  refine ⟨?_, ?_, ?_, ?_⟩
  · intro h
    have hn : findByTitle title lib.inventory = none := (findByTitle_eq_none _ _).mpr h
    simp [Library.lend_book, hn]
  · intro b c hf hl hc
    simp [Library.lend_book, hf, hl, hc]
  · intro b c hf hl hc hm
    have : ¬ c ≤ 0 := by omega
    simp [Library.lend_book, Student.borrow_book, hf, hl, this, hm]
  · intro b c hf hl hc hm
    have hc' : ¬ c ≤ 0 := by omega
    refine ⟨by simp [Library.lend_book, Student.borrow_book, hf, hl, hc', hm], ?_, ?_⟩
    · have := invLookup_invAdjust_self b (-1) c lib.inventory hl
      simpa [sub_eq_add_neg] using this
    · intro b2 hb2
      exact invLookup_invAdjust_other b2 b (-1) lib.inventory hb2

/-- Witness for C2: lending the sample book (two copies, student holds
nothing) appends it to the borrower and leaves one copy. -/
theorem lend_book_correct_witness :
    ({ inventory := [({ title := "T", author := "A", isbn := "i1" }, 2)] } :
        Library).lend_book sampleStudent "T"
      = (.ok (),
         { inventory := [({ title := "T", author := "A", isbn := "i1" }, 1)] },
         { sampleStudent with
             borrowed_books := [{ title := "T", author := "A", isbn := "i1" }] }) :=
  ((lend_book_correct
      { inventory := [({ title := "T", author := "A", isbn := "i1" }, 2)] }
      sampleStudent "T").2.2.2 { title := "T", author := "A", isbn := "i1" } 2
    (by decide) (by decide) (by decide) (by decide)).1

/-! ### C6: non-negative inventory counts -/

theorem invLookup_nonneg (b : Book) (c : Int) (l : List (Book × Int))
    (hl : ∀ p ∈ l, 0 ≤ p.2) (h : invLookup b l = some c) : 0 ≤ c := by
  induction l with
  | nil => simp [invLookup] at h
  | cons q rest ih =>
      obtain ⟨b', c'⟩ := q
      by_cases hb : b' = b
      · simp only [invLookup, if_pos hb, Option.some_inj] at h
        exact h ▸ hl (b', c') (by simp)
      · simp only [invLookup, if_neg hb] at h
        exact ih (fun p hp => hl p (by simp [hp])) h

theorem nonneg_invAdjust (b : Book) (d : Int) (l : List (Book × Int))
    (hl : ∀ p ∈ l, 0 ≤ p.2)
    (h : ∀ c, invLookup b l = some c → 0 ≤ c + d) :
    ∀ p ∈ invAdjust b d l, 0 ≤ p.2 := by
  induction l with
  | nil => simp [invAdjust]
  | cons q rest ih =>
      obtain ⟨b', c'⟩ := q
      by_cases hb : b' = b
      · intro p hp
        rw [show invAdjust b d ((b', c') :: rest) = (b', c' + d) :: rest from by
          simp [invAdjust, hb]] at hp
        rcases List.mem_cons.mp hp with rfl | hp2
        · exact h c' (by simp [invLookup, hb])
        · exact hl p (by simp [hp2])
      · intro p hp
        rw [show invAdjust b d ((b', c') :: rest) = (b', c') :: invAdjust b d rest from by
          simp [invAdjust, hb]] at hp
        rcases List.mem_cons.mp hp with rfl | hp2
        · exact hl (b', c') (by simp)
        · exact ih (fun p2 hp3 => hl p2 (by simp [hp3]))
            (fun c hc => h c (by simp [invLookup, hb, hc])) p hp2

theorem add_book_nonneg (lib : Library) (b : Book) (q : Int)
    (hq : 0 ≤ q) (hl : ∀ p ∈ lib.inventory, 0 ≤ p.2) :
    ∀ p ∈ (lib.add_book b q).inventory, 0 ≤ p.2 := by
  unfold Library.add_book
  by_cases hm : b ∈ lib.inventory.map Prod.fst
  · rw [if_pos hm]
    exact nonneg_invAdjust b q lib.inventory hl
      (fun c hc => by have := invLookup_nonneg b c lib.inventory hl hc; omega)
  · rw [if_neg hm]
    intro p hp
    rcases List.mem_append.mp hp with hp2 | hp2
    · exact hl p hp2
    · simp at hp2
      simp [hp2, hq]

theorem lend_book_nonneg (lib : Library) (s : Student) (title : String)
    (hl : ∀ p ∈ lib.inventory, 0 ≤ p.2) :
    ∀ p ∈ ((lib.lend_book s title).2.1).inventory, 0 ≤ p.2 := by
  intro p hp
  unfold Library.lend_book at hp
  split at hp
  · exact hl p hp
  · next b hf =>
      split at hp
      · exact hl p hp
      · next c hlk =>
          split at hp
          · exact hl p hp
          · next h0 =>
              split at hp
              · exact hl p hp
              · next s2 hbb =>
                  exact nonneg_invAdjust b (-1) lib.inventory hl
                    (fun c2 hc2 => by
                      rw [hlk, Option.some_inj] at hc2
                      omega) p hp

theorem accept_return_nonneg (lib : Library) (s : Student) (title : String)
    (hl : ∀ p ∈ lib.inventory, 0 ≤ p.2) :
    ∀ p ∈ ((lib.accept_return s title).2.1).inventory, 0 ≤ p.2 := by
  intro p hp
  unfold Library.accept_return at hp
  split at hp
  · exact hl p hp
  · next b hf =>
      split at hp
      · exact hl p hp
      · next hm =>
          split at hp
          · exact hl p hp
          · next s2 hrb =>
              exact nonneg_invAdjust b 1 lib.inventory hl
                (fun c2 hc2 => by
                  have := invLookup_nonneg b c2 lib.inventory hl hc2
                  omega) p hp

theorem foldl_applyOp_nonneg (ops : List LibOp) (lib : Library)
    (hl : ∀ p ∈ lib.inventory, 0 ≤ p.2)
    (hops : ∀ op ∈ ops, op.quantityOK) :
    ∀ p ∈ (List.foldl applyOp lib ops).inventory, 0 ≤ p.2 := by
  induction ops generalizing lib with
  | nil => simpa using hl
  | cons op rest ih =>
      have hop : op.quantityOK := hops op (by simp)
      have hrest : ∀ o ∈ rest, o.quantityOK := fun o ho => hops o (by simp [ho])
      have hstep : ∀ p ∈ (applyOp lib op).inventory, 0 ≤ p.2 := by
        cases op with
        | add b q => exact add_book_nonneg lib b q hop hl
        | lend s t => exact lend_book_nonneg lib s t hl
        | ret s t => exact accept_return_nonneg lib s t hl
      simpa using ih (applyOp lib op) hstep hrest

/-- Counterexample to C6 as stated: `add_book` accepts a negative quantity,
so the single call `add_book(cBook, -1)` on an empty inventory stores the
count -1, which is negative. -/
theorem library_nonneg_counterexample :
    ¬ (∀ ops : List LibOp,
        ∀ p ∈ (List.foldl applyOp { inventory := [] } ops).inventory, 0 ≤ p.2) := by
  intro h
  have h1 := h [LibOp.add cBook (-1)] (cBook, -1) (by decide)
  exact absurd h1 (by decide)

/-- C6 amended: starting from an empty inventory, after any sequence of
add_book, lend_book and accept_return calls in which every add_book
quantity is non-negative, every remaining-copies count is ≥ 0. -/
theorem library_nonneg (ops : List LibOp)
    (hops : ∀ op ∈ ops, op.quantityOK) :
    ∀ p ∈ (List.foldl applyOp { inventory := [] } ops).inventory, 0 ≤ p.2 :=
  foldl_applyOp_nonneg ops { inventory := [] } (by simp) hops

/-- Witness for C6 amended: adding two copies of the sample book and lending
one leaves the remaining count, 1, non-negative. -/
theorem library_nonneg_witness :
    (0 : Int) ≤ ((cBook, (1 : Int))).2 :=
  library_nonneg [LibOp.add cBook 2, LibOp.lend sampleStudent "T"]
    (by intro op hop
        rcases List.mem_cons.mp hop with rfl | hop2
        · simp [LibOp.quantityOK]
        · rcases List.mem_cons.mp hop2 with rfl | hop3
          · simp [LibOp.quantityOK]
          · simp at hop3)
    (cBook, 1) (by decide)

/-! ### C4: Exam.conduct success path -/

theorem conductLoop_ok (t : Teacher) (subj : String) (rand : Nat → Int)
    (ss : List Student) (i : Nat)
    (hg : ∀ j, 0 ≤ rand j ∧ rand j ≤ 10)
    (hc : ∀ s ∈ ss, s.curriculum = none ∨
        ∃ c, s.curriculum = some c ∧ subj ∈ c.required_subjects) :
    Exam.conductLoop t subj rand i ss =
      ((ss.enumFrom i).map (fun p => gradeUpd subj (rand p.1) p.2),
       ((ss.enumFrom i).filter (fun p => rand p.1 < 4)).map
         (fun p => gradeUpd subj (rand p.1) p.2),
       none) := by
  revert hc
  induction ss generalizing i with
  | nil => intro _; simp [Exam.conductLoop]
  | cons s rest ih =>
      intro hc
      have heval : t.evaluate_student s subj (rand i) = .ok (gradeUpd subj (rand i) s) := by
        rcases hc s (by simp) with hnone | ⟨c, hcur, hmem⟩
        · simp [Teacher.evaluate_student, Student.take_exam, gradeUpd, hnone,
            (hg i).1, (hg i).2]
        · simp [Teacher.evaluate_student, Student.take_exam, gradeUpd, hcur, hmem,
            (hg i).1, (hg i).2]
      have ihr := ih (i + 1) (fun s2 hs2 => hc s2 (by simp [hs2]))
      by_cases h4 : rand i < 4 <;>
        simp [Exam.conductLoop, heval, ihr, List.enumFrom, h4]

/-- C4: when the classroom is free, every generated grade lies in [1,10] and
every registered student either has no curriculum or one requiring the exam
subject, `conduct` succeeds: it returns exactly the registered students whose
generated grade is below 4, in roster order, each with the grade recorded in
the record book; the final roster keeps every student (same names and ids in
order — no removal from any collection) and the classroom ends free. -/
theorem conduct_correct (e : Exam) (rand : Nat → Int)
    (hfree : e.classroom.is_occupied = false)
    (hg : ∀ j, 1 ≤ rand j ∧ rand j ≤ 10)
    (hc : ∀ s ∈ e.registered_students, s.curriculum = none ∨
        ∃ c, s.curriculum = some c ∧ e.subject ∈ c.required_subjects) :
    e.conduct rand =
      (.ok ((e.registered_students.enum.filter (fun p => rand p.1 < 4)).map
              (fun p => gradeUpd e.subject (rand p.1) p.2)),
       { e with classroom := { e.classroom with is_occupied := false },
                registered_students :=
                  e.registered_students.enum.map
                    (fun p => gradeUpd e.subject (rand p.1) p.2) })
    ∧ (e.conduct rand).2.classroom.is_occupied = false
    ∧ (e.conduct rand).2.registered_students.map Student.full_name
        = e.registered_students.map Student.full_name
    ∧ (e.conduct rand).2.registered_students.map Student.id
        = e.registered_students.map Student.id
    ∧ (∀ p ∈ e.registered_students.enum.filter (fun p => rand p.1 < 4),
        dictLookup e.subject (gradeUpd e.subject (rand p.1) p.2).record_book
          = some (rand p.1)) := by
  have h0g : ∀ j, 0 ≤ rand j ∧ rand j ≤ 10 := fun j => by have := hg j; omega
  have hloop := conductLoop_ok e.teacher e.subject rand e.registered_students 0 h0g hc
  have hmain : e.conduct rand =
      (.ok ((e.registered_students.enum.filter (fun p => rand p.1 < 4)).map
              (fun p => gradeUpd e.subject (rand p.1) p.2)),
       { e with classroom := { e.classroom with is_occupied := false },
                registered_students :=
                  e.registered_students.enum.map
                    (fun p => gradeUpd e.subject (rand p.1) p.2) }) := by
    simp [Exam.conduct, Classroom.occupy, Classroom.vacate, hfree, hloop, List.enum]
  have hsnd : ∀ (l : List Student) (f : Student → String),
      (∀ g s, f (gradeUpd e.subject g s) = f s) →
      (l.enum.map (fun p => gradeUpd e.subject (rand p.1) p.2)).map f = l.map f := by
    intro l f hf
    rw [List.map_map]
    have h1 : (f ∘ fun p : Nat × Student => gradeUpd e.subject (rand p.1) p.2)
        = (f ∘ Prod.snd) := by
      funext p
      exact hf (rand p.1) p.2
    rw [h1, ← List.map_map, List.enum_map_snd]
  refine ⟨hmain, by rw [hmain], ?_, ?_, ?_⟩
  · rw [hmain]
    exact hsnd e.registered_students Student.full_name (fun g s => rfl)
  · rw [hmain]
    exact hsnd e.registered_students Student.id (fun g s => rfl)
  · intro p _
    simpa [gradeUpd] using
      dictLookup_dictInsert_self e.subject (rand p.1) p.2.record_book

/-- Witness for C4: one student of the IT curriculum sits the OOP exam with
deterministic grade 3; conduct returns that student as failed, with the
grade recorded, and the classroom ends free. -/
theorem conduct_correct_witness :
    (({ subject := "OOP", date := 0, teacher := sampleTeacher,
        classroom := { number := 7, capacity := 30, is_occupied := false },
        registered_students := [sampleStudent] } : Exam).conduct (fun _ => 3))
      = (.ok [{ sampleStudent with record_book := [("OOP", 3)] }],
         { subject := "OOP", date := 0, teacher := sampleTeacher,
           classroom := { number := 7, capacity := 30, is_occupied := false },
           registered_students := [{ sampleStudent with record_book := [("OOP", 3)] }] }) :=
  (conduct_correct
      { subject := "OOP", date := 0, teacher := sampleTeacher,
        classroom := { number := 7, capacity := 30, is_occupied := false },
        registered_students := [sampleStudent] }
      (fun _ => 3) rfl (fun j => by norm_num)
      (fun s hs => by
        simp only [List.mem_singleton] at hs
        subst hs
        exact Or.inr ⟨itCurriculum, rfl, by simp [itCurriculum]⟩)).1

/-! ### C1: the classroom leak on the exception path of conduct -/

/-- C1: evaluation of the code at the failing input.  `leakExam` starts with
a free classroom; its one registered student follows a curriculum that does
not require the exam subject, so grading raises EnrollmentError, and conduct
finishes with the classroom occupied flag still True — the claimed
unconditional vacate on every exit path does not hold in the code. -/
theorem conduct_leaks_classroom :
    leakExam.classroom.is_occupied = false
    ∧ (leakExam.conduct (fun _ => 5)).1 = .error .enrollmentError
    ∧ (leakExam.conduct (fun _ => 5)).2.classroom.is_occupied = true := by
  refine ⟨rfl, ?_, ?_⟩ <;> rfl

end Univ
